import Mathlib

/-
Verification of the Galaxy infrastructure sidecar (src/sidecar/galaxy_sidecar.py).

The sidecar is a single-file HTTP service.  Its state is the process
environment (read once at module load for configuration, and again per
postgres probe for credentials) plus the process start time.  Network I/O
performed by the probes is modelled by passing each probe the outcome of
each of its fallible client calls (an `Except String Unit`: success, or an
exception carrying its message), and by having each probe additionally
return the trace of client-library actions it attempted, including the
connection parameters and any explicit timeout passed to the call.
-/

namespace GalaxySidecar

/-- The process environment: a partial map from variable names to values. -/
def Env : Type := String → Option String

/-- Model of `os.getenv(key, dflt)`: the variable's value, or the default when unset. -/
def os_getenv (env : Env) (key dflt : String) : String :=
  (env key).getD dflt

/-- Whitespace as stripped by Python `int()` before parsing. -/
def pyIsSpace (c : Char) : Bool :=
  c = ' ' || c = '\t' || c = '\n' || c = '\r' || c = '\x0b' || c = '\x0c'

/-- Digit-run parser for Python `int()`: digits with single underscores
allowed between digits.  `prevDigit` records whether the previous character
was a digit (so a leading, trailing or doubled underscore is rejected, and
an empty run is rejected). -/
def pyDigitsAux : Nat → Bool → List Char → Option Nat
  | acc, prevDigit, [] => if prevDigit then some acc else none
  | acc, prevDigit, c :: rest =>
    if c.isDigit then pyDigitsAux (10 * acc + (c.toNat - 48)) true rest
    else if c = '_' && prevDigit then pyDigitsAux acc false rest
    else none

/-- Python `int(s)` for a decimal string: strip surrounding whitespace,
accept an optional sign followed by a nonempty digit run (underscores
permitted between digits); `none` models the `ValueError` raised on any
other input. -/
def python_int (s : String) : Option Int :=
  let cs := ((s.toList.dropWhile (fun c => pyIsSpace c)).reverse.dropWhile
      (fun c => pyIsSpace c)).reverse
  match cs with
  | [] => none
  | '+' :: rest => (pyDigitsAux 0 false rest).map (fun n => (n : Int))
  | '-' :: rest => (pyDigitsAux 0 false rest).map (fun n => -(n : Int))
  | _ => (pyDigitsAux 0 false cs).map (fun n => (n : Int))

/-- Source line 29: `SERVICE_NAME = os.getenv('GALAXY_SERVICE_NAME', '{{SERVICE_NAME}}')`. -/
def SERVICE_NAME (env : Env) : String :=
  os_getenv env "GALAXY_SERVICE_NAME" "\x7b\x7bSERVICE_NAME\x7d\x7d"

/-- Source line 30: `SERVICE_TIER = os.getenv('GALAXY_SERVICE_TIER', '{{TIER}}')`. -/
def SERVICE_TIER (env : Env) : String :=
  os_getenv env "GALAXY_SERVICE_TIER" "\x7b\x7bTIER\x7d\x7d"

/-- Source line 31: `SERVICE_TEAM = os.getenv('GALAXY_SERVICE_TEAM', '{{TEAM}}')`. -/
def SERVICE_TEAM (env : Env) : String :=
  os_getenv env "GALAXY_SERVICE_TEAM" "\x7b\x7bTEAM\x7d\x7d"

/-- Source line 32: `SERVICE_DESCRIPTION = os.getenv('GALAXY_SERVICE_DESCRIPTION', '{{DESCRIPTION}}')`. -/
def SERVICE_DESCRIPTION (env : Env) : String :=
  os_getenv env "GALAXY_SERVICE_DESCRIPTION" "\x7b\x7bDESCRIPTION\x7d\x7d"

/-- Source line 35: `INFRA_SERVICE_HOST = os.getenv('INFRA_SERVICE_HOST', 'localhost')`. -/
def INFRA_SERVICE_HOST (env : Env) : String :=
  os_getenv env "INFRA_SERVICE_HOST" "localhost"

/-- Source line 37: `INFRA_SERVICE_TYPE = os.getenv('INFRA_SERVICE_TYPE', 'postgres')`. -/
def INFRA_SERVICE_TYPE (env : Env) : String :=
  os_getenv env "INFRA_SERVICE_TYPE" "postgres"

/-- Credential read `os.getenv('POSTGRES_USER', 'postgres')`, read at probe call time. -/
def POSTGRES_USER (env : Env) : String :=
  os_getenv env "POSTGRES_USER" "postgres"

/-- Credential read `os.getenv('POSTGRES_PASSWORD', '')`, read at probe call time. -/
def POSTGRES_PASSWORD (env : Env) : String :=
  os_getenv env "POSTGRES_PASSWORD" ""

/-- Credential read `os.getenv('POSTGRES_DB', 'postgres')`, read at probe call time. -/
def POSTGRES_DB (env : Env) : String :=
  os_getenv env "POSTGRES_DB" "postgres"

/-- The module-level configuration fixed at load time (lines 29-37). -/
structure Config where
  serviceName : String
  serviceTier : String
  serviceTeam : String
  serviceDescription : String
  infraHost : String
  infraPort : Int
  infraType : String
deriving DecidableEq, Repr

/-- Module load of the configuration block: every assignment succeeds except
`INFRA_SERVICE_PORT = int(os.getenv('INFRA_SERVICE_PORT', '5432'))`, whose
`int()` raises `ValueError` on a non-numeric value, aborting the load. -/
def loadConfig (env : Env) : Except String Config :=
  match python_int (os_getenv env "INFRA_SERVICE_PORT" "5432") with
  | none => .error ("invalid literal for int() with base 10: " ++
      os_getenv env "INFRA_SERVICE_PORT" "5432")
  | some p => .ok
    { serviceName := SERVICE_NAME env
      serviceTier := SERVICE_TIER env
      serviceTeam := SERVICE_TEAM env
      serviceDescription := SERVICE_DESCRIPTION env
      infraHost := INFRA_SERVICE_HOST env
      infraPort := p
      infraType := INFRA_SERVICE_TYPE env }

/-- A per-call health result: the dict `{"status": ..., "details": ...}`. -/
structure HealthResult where
  status : String
  details : String
deriving DecidableEq, Repr

/-- A client-library action attempted by a probe.  Connection-establishing
actions carry the parameters the source passes, and an `Option Nat` for the
explicit timeout (in seconds) the call site supplies, `none` when the call
site passes no timeout argument. -/
inductive ProbeStep where
  | pgConnect (host : String) (port : Int)
      (user password db : String) (timeout : Option Nat)
  | pgExecute (query : String)
  | pgClose
  | redisFromUrl (url : String)
  | redisPing (timeout : Option Nat)
  | redisClose
  | tcpOpen (host : String) (port : Int) (timeout : Option Nat)
  | tcpClose
deriving DecidableEq, Repr

/-- The explicit timeout the call site attached to a step, if any. -/
def ProbeStep.explicitTimeout : ProbeStep → Option Nat
  | .pgConnect _ _ _ _ _ t => t
  | .pgExecute _ => none
  | .pgClose => none
  | .redisFromUrl _ => none
  | .redisPing t => t
  | .redisClose => none
  | .tcpOpen _ _ t => t
  | .tcpClose => none

/-- Outcomes of the fallible client calls of the postgres probe:
`asyncpg.connect(...)` and `conn.execute('SELECT 1')`. -/
structure PgOutcome where
  connect : Except String Unit
  execute : Except String Unit

/-- Outcomes of the fallible client calls of the redis probe:
`aioredis.from_url(...)` and `redis.ping()`. -/
structure RedisOutcome where
  fromUrl : Except String Unit
  ping : Except String Unit

/-- Outcome of the fallible client call of the generic TCP probe:
`asyncio.wait_for(asyncio.open_connection(host, port), timeout=5.0)`. -/
structure TcpOutcome where
  connect : Except String Unit

/-- Probe `check_postgres_health` (lines 64-81): connect with the configured
host/port and the credentials read from the environment, run `SELECT 1`,
close, report healthy; any exception along the way is caught and reported
as unhealthy with the exception's message as the details.  The second
component is the trace of client calls attempted. -/
def check_postgres_health (env : Env) (cfg : Config) (o : PgOutcome) :
    HealthResult × List ProbeStep :=
  let conn : ProbeStep := .pgConnect cfg.infraHost cfg.infraPort
      (POSTGRES_USER env) (POSTGRES_PASSWORD env) (POSTGRES_DB env) none
  match o.connect with
  | .error e => (⟨"unhealthy", e⟩, [conn])
  | .ok _ =>
    match o.execute with
    | .error e => (⟨"unhealthy", e⟩, [conn, .pgExecute "SELECT 1"])
    | .ok _ =>
      (⟨"healthy", "PostgreSQL connection successful"⟩,
        [conn, .pgExecute "SELECT 1", .pgClose])

/-- The URL the redis probe builds: `f"redis://{INFRA_SERVICE_HOST}:{INFRA_SERVICE_PORT}"`. -/
def redisUrl (cfg : Config) : String :=
  "redis://" ++ cfg.infraHost ++ ":" ++ toString cfg.infraPort

/-- Probe `check_redis_health` (lines 83-93): build a client from the redis URL,
ping, close, report healthy; any exception is caught and reported as
unhealthy with the exception's message as the details. -/
def check_redis_health (cfg : Config) (o : RedisOutcome) :
    HealthResult × List ProbeStep :=
  match o.fromUrl with
  | .error e => (⟨"unhealthy", e⟩, [.redisFromUrl (redisUrl cfg)])
  | .ok _ =>
    match o.ping with
    | .error e => (⟨"unhealthy", e⟩,
        [.redisFromUrl (redisUrl cfg), .redisPing none])
    | .ok _ =>
      (⟨"healthy", "Redis ping successful"⟩,
        [.redisFromUrl (redisUrl cfg), .redisPing none, .redisClose])

/-- Probe `check_generic_tcp_health` (lines 95-107): open a raw TCP connection to
the configured host and port under `asyncio.wait_for` with `timeout=5.0`;
on success close the writer and report healthy, naming the target; any
exception (timeout or refusal) is caught and reported as unhealthy with the
exception's message as the details. -/
def check_generic_tcp_health (cfg : Config) (o : TcpOutcome) :
    HealthResult × List ProbeStep :=
  let opening : ProbeStep := .tcpOpen cfg.infraHost cfg.infraPort (some 5)
  match o.connect with
  | .error e => (⟨"unhealthy", e⟩, [opening])
  | .ok _ =>
    (⟨"healthy", "TCP connection to " ++ cfg.infraHost ++ ":" ++
        toString cfg.infraPort ++ " successful"⟩,
      [opening, .tcpClose])

/-- Outcomes for whichever probe the dispatcher may run. -/
structure InfraOutcome where
  pg : PgOutcome
  redis : RedisOutcome
  tcp : TcpOutcome

/-- Dispatcher `check_infrastructure_health` (lines 109-116): exact string dispatch on
the configured type; `"postgres"` and `"redis"` select their dedicated
probes and anything else falls through to the generic TCP probe. -/
def check_infrastructure_health (env : Env) (cfg : Config) (o : InfraOutcome) :
    HealthResult × List ProbeStep :=
  if cfg.infraType = "postgres" then check_postgres_health env cfg o.pg
  else if cfg.infraType = "redis" then check_redis_health cfg o.redis
  else check_generic_tcp_health cfg o.tcp

/-- The message of the first client call that raises on the postgres
probe's executed path, if any. -/
def PgOutcome.firstFailure (o : PgOutcome) : Option String :=
  match o.connect with
  | .error e => some e
  | .ok _ =>
    match o.execute with
    | .error e => some e
    | .ok _ => none

/-- The message of the first client call that raises on the redis probe's
executed path, if any. -/
def RedisOutcome.firstFailure (o : RedisOutcome) : Option String :=
  match o.fromUrl with
  | .error e => some e
  | .ok _ =>
    match o.ping with
    | .error e => some e
    | .ok _ => none

/-- The message of the client call that raises on the generic probe's
executed path, if any. -/
def TcpOutcome.firstFailure (o : TcpOutcome) : Option String :=
  match o.connect with
  | .error e => some e
  | .ok _ => none

/-- The message of the first exception the dispatched probe's underlying
client calls raise, if any, for a given configured type. -/
def InfraOutcome.firstFailure (ty : String) (o : InfraOutcome) : Option String :=
  if ty = "postgres" then o.pg.firstFailure
  else if ty = "redis" then o.redis.firstFailure
  else o.tcp.firstFailure

/-- The system sub-object of the `/health` checks dict. -/
structure SystemChecks where
  cpu_percent : ℚ
  memory_percent : ℚ
  disk_percent : ℚ
deriving DecidableEq, Repr

/-- The `/health` response model (`HealthResponse`, lines 39-44); the
`checks` dict is flattened into its two entries. -/
structure HealthResponse where
  status : String
  timestamp : String
  service : String
  infrastructure_status : String
  checks_infrastructure : HealthResult
  checks_system : SystemChecks
deriving DecidableEq, Repr

/-- The `/galaxy/info` response model (`InfoResponse`, lines 46-54). -/
structure InfoResponse where
  name : String
  description : String
  tier : String
  team : String
  version : String
  infrastructure_type : String
  galaxy_managed : Bool
  uptime_seconds : ℚ
deriving DecidableEq, Repr

/-- The infrastructure_service dict of the `/galaxy/dependencies` response. -/
structure InfraServiceDescriptor where
  type : String
  host : String
  port : Int
  galaxy_sidecar : Bool
deriving DecidableEq, Repr

/-- The `/galaxy/dependencies` response model (`DependencyResponse`,
lines 56-59); the source's untyped `dependencies: list` holds strings. -/
structure DependencyResponse where
  service : String
  dependencies : List String
  infrastructure_service : InfraServiceDescriptor
deriving DecidableEq, Repr

/-- The `/galaxy/root` response dict (lines 164-175), with the nested
infrastructure dict flattened into its three entries. -/
structure RootResponse where
  service : String
  message : String
  tier : String
  team : String
  infrastructure_type : String
  infrastructure_host : String
  infrastructure_port : Int
  endpoints : List String
deriving DecidableEq, Repr

/-- Handler `health_check` (lines 118-143): run the dispatched probe, sample the
system metrics (passed in here: the sampled cpu and memory percentages and
the disk usage returned by `psutil.disk_usage`), derive the overall status
from the infrastructure status alone, and assemble the response.
`now_iso` is `datetime.now().isoformat()` at request time. -/
def health_check (env : Env) (cfg : Config) (o : InfraOutcome)
    (now_iso : String) (cpu_percent memory_percent disk_used disk_total : ℚ) :
    HealthResponse :=
  let infra_health := (check_infrastructure_health env cfg o).1
  let overall_status :=
    if infra_health.status = "healthy" then "healthy" else "unhealthy"
  { status := overall_status
    timestamp := now_iso
    service := cfg.serviceName
    infrastructure_status := infra_health.status
    checks_infrastructure := infra_health
    checks_system :=
      { cpu_percent := cpu_percent
        memory_percent := memory_percent
        disk_percent := disk_used / disk_total * 100 } }

/-- Handler `service_info` (lines 145-159): static configuration plus
`uptime = (datetime.now() - START_TIME).total_seconds()`, with `start_time`
and `now` as seconds on the wall clock. -/
def service_info (cfg : Config) (start_time now : ℚ) : InfoResponse :=
  { name := cfg.serviceName
    description := cfg.serviceDescription
    tier := cfg.serviceTier
    team := cfg.serviceTeam
    version := "1.0.0"
    infrastructure_type := cfg.infraType
    galaxy_managed := true
    uptime_seconds := now - start_time }

/-- Handler `root` (lines 161-175): the `/galaxy/root` payload. -/
def root (cfg : Config) : RootResponse :=
  { service := cfg.serviceName
    message := "Galaxy Infrastructure Sidecar for " ++ cfg.infraType
    tier := cfg.serviceTier
    team := cfg.serviceTeam
    infrastructure_type := cfg.infraType
    infrastructure_host := cfg.infraHost
    infrastructure_port := cfg.infraPort
    endpoints := ["/health", "/galaxy/info", "/galaxy/root",
      "/galaxy/dependencies"] }

/-- Handler `dependencies` (lines 177-189): the `/galaxy/dependencies` payload,
with a literally empty dependency list and `galaxy_sidecar: True`. -/
def dependencies (cfg : Config) : DependencyResponse :=
  { service := cfg.serviceName
    dependencies := []
    infrastructure_service :=
      { type := cfg.infraType
        host := cfg.infraHost
        port := cfg.infraPort
        galaxy_sidecar := true } }

/-- Process startup: either the module-level configuration load raises and
the process dies, or the configuration is fixed and `uvicorn.run` binds the
listener and serves requests with it (lines 191-200).  Request handling is
only defined in the `serving` state. -/
inductive StartupResult where
  | failed (msg : String)
  | serving (cfg : Config)
deriving DecidableEq, Repr

/-- Starting the process: configuration parsing happens at module load,
strictly before the HTTP listener is bound. -/
def startProcess (env : Env) : StartupResult :=
  match loadConfig env with
  | .error e => .failed e
  | .ok cfg => .serving cfg

/-- An empty environment: every variable unset, all defaults apply. -/
def env0 : Env := fun _ => none

/-- The configuration the empty environment loads to. -/
def cfg0 : Config :=
  { serviceName := "\x7b\x7bSERVICE_NAME\x7d\x7d"
    serviceTier := "\x7b\x7bTIER\x7d\x7d"
    serviceTeam := "\x7b\x7bTEAM\x7d\x7d"
    serviceDescription := "\x7b\x7bDESCRIPTION\x7d\x7d"
    infraHost := "localhost"
    infraPort := 5432
    infraType := "postgres" }

/-- A configuration dispatching to the redis probe. -/
def cfgRedis : Config := { cfg0 with infraType := "redis" }

/-- A configuration whose type matches neither dedicated probe, so the
dispatcher falls through to the generic TCP probe. -/
def cfgTcp : Config := { cfg0 with infraType := "mysql" }

/-- Probe outcomes in which every client call succeeds. -/
def okOutcome : InfraOutcome :=
  { pg := { connect := .ok (), execute := .ok () }
    redis := { fromUrl := .ok (), ping := .ok () }
    tcp := { connect := .ok () } }

/-- Probe outcomes in which the first client call of every probe raises
an exception with message "connection refused". -/
def refusedOutcome : InfraOutcome :=
  { pg := { connect := .error "connection refused", execute := .ok () }
    redis := { fromUrl := .error "connection refused", ping := .ok () }
    tcp := { connect := .error "connection refused" } }

/-- Helper: the postgres probe returns the fixed healthy result when no
client call raises, and an unhealthy result carrying the first raised
exception's message otherwise. -/
theorem check_postgres_health_spec (env : Env) (cfg : Config) (o : PgOutcome) :
    (o.firstFailure = none ∧
      (check_postgres_health env cfg o).1 =
        ⟨"healthy", "PostgreSQL connection successful"⟩) ∨
    (∃ e, o.firstFailure = some e ∧
      (check_postgres_health env cfg o).1 = ⟨"unhealthy", e⟩) := by
  obtain ⟨c, x⟩ := o
  cases c with
  | error e => exact Or.inr ⟨e, rfl, rfl⟩
  | ok u =>
    cases u
    cases x with
    | error e => exact Or.inr ⟨e, rfl, rfl⟩
    | ok u' => cases u'; exact Or.inl ⟨rfl, rfl⟩

/-- Helper: the redis probe returns the fixed healthy result when no client
call raises, and an unhealthy result carrying the first raised exception's
message otherwise. -/
theorem check_redis_health_spec (cfg : Config) (o : RedisOutcome) :
    (o.firstFailure = none ∧
      (check_redis_health cfg o).1 = ⟨"healthy", "Redis ping successful"⟩) ∨
    (∃ e, o.firstFailure = some e ∧
      (check_redis_health cfg o).1 = ⟨"unhealthy", e⟩) := by
  obtain ⟨c, x⟩ := o
  cases c with
  | error e => exact Or.inr ⟨e, rfl, rfl⟩
  | ok u =>
    cases u
    cases x with
    | error e => exact Or.inr ⟨e, rfl, rfl⟩
    | ok u' => cases u'; exact Or.inl ⟨rfl, rfl⟩

/-- Helper: the generic TCP probe returns a healthy result naming the
target when the connection succeeds, and an unhealthy result carrying the
exception's message otherwise. -/
theorem check_generic_tcp_health_spec (cfg : Config) (o : TcpOutcome) :
    (o.firstFailure = none ∧
      (check_generic_tcp_health cfg o).1 =
        ⟨"healthy", "TCP connection to " ++ cfg.infraHost ++ ":" ++
          toString cfg.infraPort ++ " successful"⟩) ∨
    (∃ e, o.firstFailure = some e ∧
      (check_generic_tcp_health cfg o).1 = ⟨"unhealthy", e⟩) := by
  obtain ⟨c⟩ := o
  cases c with
  | error e => exact Or.inr ⟨e, rfl, rfl⟩
  | ok u => cases u; exact Or.inl ⟨rfl, rfl⟩

/-- Helper: whatever the configured type and the probe outcomes, the
dispatcher either reports healthy (when no client call of the dispatched
probe raised) or reports unhealthy with the first raised exception's
message as the details. -/
theorem check_infrastructure_health_spec (env : Env) (cfg : Config)
    (o : InfraOutcome) :
    (InfraOutcome.firstFailure cfg.infraType o = none ∧
      (check_infrastructure_health env cfg o).1.status = "healthy") ∨
    (∃ e, InfraOutcome.firstFailure cfg.infraType o = some e ∧
      (check_infrastructure_health env cfg o).1 = ⟨"unhealthy", e⟩) := by
  unfold check_infrastructure_health InfraOutcome.firstFailure
  by_cases h1 : cfg.infraType = "postgres"
  · simp only [h1, if_true, if_pos]
    rcases check_postgres_health_spec env cfg o.pg with ⟨h, h'⟩ | ⟨e, h, h'⟩
    · exact Or.inl ⟨h, by rw [h']⟩
    · exact Or.inr ⟨e, h, h'⟩
  · by_cases h2 : cfg.infraType = "redis"
    · simp [h1, h2]
      rcases check_redis_health_spec cfg o.redis with ⟨h, h'⟩ | ⟨e, h, h'⟩
      · exact Or.inl ⟨h, by rw [h']⟩
      · exact Or.inr ⟨e, h, h'⟩
    · simp only [h1, h2, if_false]
      rcases check_generic_tcp_health_spec cfg o.tcp with ⟨h, h'⟩ | ⟨e, h, h'⟩
      · exact Or.inl ⟨h, by rw [h']⟩
      · exact Or.inr ⟨e, h, h'⟩

/-- Claim C1: for every configured infra type and every outcome of the
underlying probe's client calls, the dispatcher (a total function: it never
propagates an error to its caller) converts any raised exception into a
`HealthResult` with status "unhealthy" whose details are the exception's
message; consequently the `/health` handler is itself a total function
whose response always carries a status field that is "healthy" or
"unhealthy" (the HTTP-200-with-status-field guarantee). -/
theorem C1_dispatcher_absorbs_probe_errors (env : Env) (cfg : Config)
    (o : InfraOutcome) (now_iso : String)
    (cpu_percent memory_percent disk_used disk_total : ℚ) :
    (∀ e, InfraOutcome.firstFailure cfg.infraType o = some e →
      (check_infrastructure_health env cfg o).1 = ⟨"unhealthy", e⟩) ∧
    ((health_check env cfg o now_iso cpu_percent memory_percent disk_used
        disk_total).status = "healthy" ∨
      (health_check env cfg o now_iso cpu_percent memory_percent disk_used
        disk_total).status = "unhealthy") := by
  constructor
  · intro e he
    rcases check_infrastructure_health_spec env cfg o with ⟨h, _⟩ | ⟨e', h, h'⟩
    · rw [he] at h; exact Option.noConfusion h
    · rw [he] at h
      injection h with h
      subst h
      exact h'
  · by_cases h : (check_infrastructure_health env cfg o).1.status = "healthy"
    · left; simp [health_check, h]
    · right; simp [health_check, h]

/-- Witness for C1: with the default configuration (type "postgres") and a
probe whose connection attempt raises "connection refused", the dispatcher
returns the unhealthy result carrying that message. -/
theorem C1_witness :
    (check_infrastructure_health env0 cfg0 refusedOutcome).1 =
      ⟨"unhealthy", "connection refused"⟩ :=
  (C1_dispatcher_absorbs_probe_errors env0 cfg0 refusedOutcome "t" 0 0 0 1).1
    "connection refused" (by decide)

/-- Claim C2: the `/health` top-level status is "healthy" exactly when the
infrastructure probe's status is "healthy", and the sampled system metrics
(cpu, memory, disk) have no influence on the top-level status. -/
theorem C2_overall_status_iff_infra (env : Env) (cfg : Config)
    (o : InfraOutcome) (now_iso : String)
    (cpu_percent memory_percent disk_used disk_total : ℚ) :
    ((health_check env cfg o now_iso cpu_percent memory_percent disk_used
        disk_total).status = "healthy" ↔
      (health_check env cfg o now_iso cpu_percent memory_percent disk_used
        disk_total).infrastructure_status = "healthy") ∧
    (∀ cpu' mem' du' dt' : ℚ,
      (health_check env cfg o now_iso cpu_percent memory_percent disk_used
        disk_total).status =
      (health_check env cfg o now_iso cpu' mem' du' dt').status) := by
  constructor
  · by_cases h : (check_infrastructure_health env cfg o).1.status = "healthy"
    · simp [health_check, h]
    · simp [health_check, h]
  · intro cpu' mem' du' dt'
    rfl

/-- Claim C3: the dispatcher selects the probe by exact string match on the
configured type ("postgres" and "redis" select their dedicated probes and
every other value falls through to the generic TCP probe); the postgres
probe connects with the configured host/port/user/password/db, and when the
connection succeeds it executes the query "SELECT 1" and then closes the
connection, any error yielding an unhealthy result; the redis probe builds
a client for the configured target and issues a ping. -/
theorem C3_dispatch_and_probe_actions (env : Env) (cfg : Config)
    (o : InfraOutcome) :
    (cfg.infraType = "postgres" →
      check_infrastructure_health env cfg o =
        check_postgres_health env cfg o.pg) ∧
    (cfg.infraType = "redis" →
      check_infrastructure_health env cfg o =
        check_redis_health cfg o.redis) ∧
    (cfg.infraType ≠ "postgres" → cfg.infraType ≠ "redis" →
      check_infrastructure_health env cfg o =
        check_generic_tcp_health cfg o.tcp) ∧
    ((check_postgres_health env cfg o.pg).2.head? =
      some (.pgConnect cfg.infraHost cfg.infraPort (POSTGRES_USER env)
        (POSTGRES_PASSWORD env) (POSTGRES_DB env) none)) ∧
    (o.pg.connect = .ok () → o.pg.execute = .ok () →
      check_postgres_health env cfg o.pg =
        (⟨"healthy", "PostgreSQL connection successful"⟩,
          [.pgConnect cfg.infraHost cfg.infraPort (POSTGRES_USER env)
            (POSTGRES_PASSWORD env) (POSTGRES_DB env) none,
            .pgExecute "SELECT 1", .pgClose])) ∧
    (∀ e, o.pg.firstFailure = some e →
      (check_postgres_health env cfg o.pg).1 = ⟨"unhealthy", e⟩) ∧
    (o.redis.fromUrl = .ok () → o.redis.ping = .ok () →
      check_redis_health cfg o.redis =
        (⟨"healthy", "Redis ping successful"⟩,
          [.redisFromUrl (redisUrl cfg), .redisPing none, .redisClose])) := by
  refine ⟨fun h1 => ?_, fun h2 => ?_, fun h1 h2 => ?_, ?_, fun hc hx => ?_,
    fun e he => ?_, fun hu hp => ?_⟩
  · simp [check_infrastructure_health, h1]
  · by_cases h1 : cfg.infraType = "postgres"
    · rw [h1] at h2; exact absurd h2 (by decide)
    · simp [check_infrastructure_health, h1, h2]
  · simp [check_infrastructure_health, h1, h2]
  · cases hc : o.pg.connect with
    | error e => simp [check_postgres_health, hc]
    | ok u =>
      cases hx : o.pg.execute with
      | error e => simp [check_postgres_health, hc, hx]
      | ok u' => simp [check_postgres_health, hc, hx]
  · simp [check_postgres_health, hc, hx]
  · rcases check_postgres_health_spec env cfg o.pg with ⟨h, _⟩ | ⟨e', h, h'⟩
    · rw [he] at h; exact Option.noConfusion h
    · rw [he] at h
      injection h with h
      subst h
      exact h'
  · simp [check_redis_health, hu, hp]

/-- Witness for C3: each dispatch branch at a concrete configuration, the
successful postgres probe's full action trace at the default environment,
and the unhealthy result when the postgres connection is refused. -/
theorem C3_witness :
    check_infrastructure_health env0 cfg0 okOutcome =
        check_postgres_health env0 cfg0 okOutcome.pg ∧
    check_infrastructure_health env0 cfgRedis okOutcome =
        check_redis_health cfgRedis okOutcome.redis ∧
    check_infrastructure_health env0 cfgTcp okOutcome =
        check_generic_tcp_health cfgTcp okOutcome.tcp ∧
    check_postgres_health env0 cfg0 okOutcome.pg =
      (⟨"healthy", "PostgreSQL connection successful"⟩,
        [.pgConnect "localhost" 5432 "postgres" "" "postgres" none,
          .pgExecute "SELECT 1", .pgClose]) ∧
    (check_postgres_health env0 cfg0 refusedOutcome.pg).1 =
      ⟨"unhealthy", "connection refused"⟩ :=
  ⟨(C3_dispatch_and_probe_actions env0 cfg0 okOutcome).1 rfl,
    (C3_dispatch_and_probe_actions env0 cfgRedis okOutcome).2.1 rfl,
    (C3_dispatch_and_probe_actions env0 cfgTcp okOutcome).2.2.1
      (by decide) (by decide),
    (C3_dispatch_and_probe_actions env0 cfg0 okOutcome).2.2.2.2.1 rfl rfl,
    (C3_dispatch_and_probe_actions env0 cfg0 refusedOutcome).2.2.2.2.2.1
      "connection refused" rfl⟩

/-- Counterexample to claim C4 ("every probe call is bounded by an explicit
timeout ... the postgres and redis probe client calls are also bounded by
an explicit timeout of about 5 seconds"): under the default configuration
(type "postgres") with a refused connection, the trace of client calls
contains a call carrying no explicit timeout at all. -/
theorem C4_counterexample :
    ((check_infrastructure_health env0 cfg0 refusedOutcome).2.all
      (fun a => a.explicitTimeout == some 5)) = false := by decide

/-- Claim C4 as amended: only the generic TCP probe's connection attempt
carries an explicit timeout (5 seconds, via `asyncio.wait_for`); the
postgres and redis probe client calls pass no explicit timeout, so only the
generic path is explicitly bounded. -/
theorem C4_amended_timeouts (env : Env) (cfg : Config) (o : InfraOutcome) :
    ((check_generic_tcp_health cfg o.tcp).2.head? =
      some (.tcpOpen cfg.infraHost cfg.infraPort (some 5))) ∧
    (∀ a ∈ (check_generic_tcp_health cfg o.tcp).2,
      a.explicitTimeout = some 5 ∨ a = .tcpClose) ∧
    (∀ a ∈ (check_postgres_health env cfg o.pg).2,
      a.explicitTimeout = none) ∧
    (∀ a ∈ (check_redis_health cfg o.redis).2,
      a.explicitTimeout = none) := by
  refine ⟨?_, ?_, ?_, ?_⟩
  · cases hc : o.tcp.connect with
    | error e => simp [check_generic_tcp_health, hc]
    | ok u => simp [check_generic_tcp_health, hc]
  · intro a ha
    cases hc : o.tcp.connect with
    | error e =>
      simp [check_generic_tcp_health, hc] at ha
      subst ha
      exact Or.inl rfl
    | ok u =>
      simp [check_generic_tcp_health, hc] at ha
      rcases ha with ha | ha <;> subst ha
      · exact Or.inl rfl
      · exact Or.inr rfl
  · intro a ha
    cases hc : o.pg.connect with
    | error e =>
      simp [check_postgres_health, hc] at ha
      subst ha
      rfl
    | ok u =>
      cases hx : o.pg.execute with
      | error e =>
        simp [check_postgres_health, hc, hx] at ha
        rcases ha with ha | ha <;> subst ha <;> rfl
      | ok u' =>
        simp [check_postgres_health, hc, hx] at ha
        rcases ha with ha | ha | ha <;> subst ha <;> rfl
  · intro a ha
    cases hc : o.redis.fromUrl with
    | error e =>
      simp [check_redis_health, hc] at ha
      subst ha
      rfl
    | ok u =>
      cases hx : o.redis.ping with
      | error e =>
        simp [check_redis_health, hc, hx] at ha
        rcases ha with ha | ha <;> subst ha <;> rfl
      | ok u' =>
        simp [check_redis_health, hc, hx] at ha
        rcases ha with ha | ha | ha <;> subst ha <;> rfl

/-- Witness for the amended C4: concrete steps of the concrete traces.  The
generic probe's connection step at the default target carries the explicit
5-second timeout, and the postgres connection step carries none. -/
theorem C4_amended_witness :
    (ProbeStep.explicitTimeout (.tcpOpen "localhost" 5432 (some 5)) =
        some 5 ∨ (ProbeStep.tcpOpen "localhost" 5432 (some 5)) = .tcpClose) ∧
    ProbeStep.explicitTimeout
      (.pgConnect "localhost" 5432 "postgres" "" "postgres" none) = none :=
  ⟨(C4_amended_timeouts env0 cfg0 refusedOutcome).2.1
      (.tcpOpen "localhost" 5432 (some 5)) (by decide),
    (C4_amended_timeouts env0 cfg0 refusedOutcome).2.2.1
      (.pgConnect "localhost" 5432 "postgres" "" "postgres" none) (by decide)⟩

/-- Claim C5: the generic probe (selected for every type other than
"postgres" and "redis") attempts the raw TCP connection under a 5-second
timeout; a successful connection is closed immediately and reported as
healthy, and a timeout or refusal is reported as unhealthy with the
underlying error text as the details. -/
theorem C5_generic_tcp_probe (cfg : Config) (o : TcpOutcome) :
    ((check_generic_tcp_health cfg o).2.head? =
      some (.tcpOpen cfg.infraHost cfg.infraPort (some 5))) ∧
    (o.connect = .ok () →
      check_generic_tcp_health cfg o =
        (⟨"healthy", "TCP connection to " ++ cfg.infraHost ++ ":" ++
            toString cfg.infraPort ++ " successful"⟩,
          [.tcpOpen cfg.infraHost cfg.infraPort (some 5), .tcpClose])) ∧
    (∀ e, o.connect = .error e →
      check_generic_tcp_health cfg o =
        (⟨"unhealthy", e⟩, [.tcpOpen cfg.infraHost cfg.infraPort (some 5)])) := by
  refine ⟨?_, fun hc => ?_, fun e hc => ?_⟩
  · cases hc : o.connect with
    | error e => simp [check_generic_tcp_health, hc]
    | ok u => simp [check_generic_tcp_health, hc]
  · simp [check_generic_tcp_health, hc]
  · simp [check_generic_tcp_health, hc]

/-- Witness for C5: the generic probe at the "mysql"-typed configuration,
once with a successful connection and once with a timed-out one. -/
theorem C5_witness :
    check_generic_tcp_health cfgTcp { connect := .ok () } =
      (⟨"healthy", "TCP connection to localhost:5432 successful"⟩,
        [.tcpOpen "localhost" 5432 (some 5), .tcpClose]) ∧
    check_generic_tcp_health cfgTcp { connect := .error "timed out" } =
      (⟨"unhealthy", "timed out"⟩, [.tcpOpen "localhost" 5432 (some 5)]) :=
  ⟨(C5_generic_tcp_probe cfgTcp { connect := .ok () }).2.1 rfl,
    (C5_generic_tcp_probe cfgTcp { connect := .error "timed out" }).2.2
      "timed out" rfl⟩

/-- Counterexample to claim C6 ("when the generic TCP probe targets a host
that accepts the TCP connection but never responds with any data, the probe
returns status unhealthy within about 5 seconds"): when the target accepts
the connection the probe's status is not "unhealthy" — the probe never
awaits any data, so acceptance alone already yields "healthy". -/
theorem C6_counterexample :
    ¬ ((check_generic_tcp_health cfgTcp { connect := Except.ok () }).1.status
      = "unhealthy") := by decide

/-- Claim C6 as amended: when the target accepts the TCP connection the
probe returns status "healthy" (it sends and awaits no data), and the
connection attempt itself is the only step that can block, bounded by the
explicit 5-second timeout, so the probe cannot hang indefinitely. -/
theorem C6_amended_accept_is_healthy (cfg : Config) (o : TcpOutcome) :
    (o.connect = .ok () →
      (check_generic_tcp_health cfg o).1.status = "healthy") ∧
    (∀ a ∈ (check_generic_tcp_health cfg o).2, a.explicitTimeout ≠ none →
      a.explicitTimeout = some 5) := by
  constructor
  · intro hc
    simp [check_generic_tcp_health, hc]
  · intro a ha hne
    cases hc : o.connect with
    | error e =>
      simp [check_generic_tcp_health, hc] at ha
      subst ha
      rfl
    | ok u =>
      simp [check_generic_tcp_health, hc] at ha
      rcases ha with ha | ha <;> subst ha
      · rfl
      · exact absurd rfl hne

/-- Witness for the amended C6: at the "mysql"-typed configuration with an
accepted connection, the probe's status is "healthy". -/
theorem C6_amended_witness :
    (check_generic_tcp_health cfgTcp { connect := Except.ok () }).1.status =
      "healthy" :=
  (C6_amended_accept_is_healthy cfgTcp { connect := .ok () }).1 rfl

/-- Claim C7: within one process lifetime the `/galaxy/info` uptime is
monotonically non-decreasing: with the start time fixed, a later call's
`uptime_seconds` (computed as now minus the process start time) is at least
an earlier call's. -/
theorem C7_uptime_monotone (cfg : Config) (start_time t1 t2 : ℚ)
    (h : t1 ≤ t2) :
    (service_info cfg start_time t1).uptime_seconds ≤
      (service_info cfg start_time t2).uptime_seconds := by
  simp only [service_info]
  exact sub_le_sub_right h start_time

/-- Witness for C7: at the default configuration, the uptime reported one
second after start is at most the uptime reported two seconds after. -/
theorem C7_witness :
    (service_info cfg0 0 1).uptime_seconds ≤
      (service_info cfg0 0 2).uptime_seconds :=
  C7_uptime_monotone cfg0 0 1 2 (by norm_num)

/-- Claim C8: when INFRA_SERVICE_PORT is set to a string `int()` rejects,
the module-level configuration parse raises, so the process fails at
startup and never reaches the serving state (the HTTP listener is bound
only after the configuration block has run). -/
theorem C8_bad_port_fails_startup (env : Env) (s : String)
    (hset : env "INFRA_SERVICE_PORT" = some s)
    (hbad : python_int s = none) :
    startProcess env =
      .failed ("invalid literal for int() with base 10: " ++ s) ∧
    ∀ cfg, startProcess env ≠ .serving cfg := by
  have hg : os_getenv env "INFRA_SERVICE_PORT" "5432" = s := by
    simp [os_getenv, hset]
  have hfail : startProcess env =
      .failed ("invalid literal for int() with base 10: " ++ s) := by
    unfold startProcess loadConfig
    rw [hg, hbad]
  refine ⟨hfail, fun cfg hserve => ?_⟩
  rw [hfail] at hserve
  exact StartupResult.noConfusion hserve

/-- An environment whose only set variable is a non-numeric port. -/
def envBadPort : Env :=
  fun k => if k = "INFRA_SERVICE_PORT" then some "fivethousand" else none

/-- Witness for C8: with INFRA_SERVICE_PORT set to "fivethousand" the
process fails at startup with the int() parse error. -/
theorem C8_witness :
    startProcess envBadPort =
      .failed "invalid literal for int() with base 10: fivethousand" :=
  (C8_bad_port_fails_startup envBadPort "fivethousand" (by decide)
    (by decide)).1

/-- Claim C9: for every configuration, the `/galaxy/dependencies` response
has the empty list as its dependencies field and an infrastructure_service
object whose galaxy_sidecar field is true. -/
theorem C9_dependencies_invariant (cfg : Config) :
    (dependencies cfg).dependencies = [] ∧
    (dependencies cfg).infrastructure_service.galaxy_sidecar = true :=
  ⟨rfl, rfl⟩

/-- Claim C10: when any of the four GALAXY_SERVICE_* variables is unset,
the corresponding configuration value defaults to the literal unexpanded
template placeholder, and that placeholder appears verbatim in the
endpoint responses that serialize the corresponding field: the service
name in all four responses, the tier and team in `/galaxy/info` and
`/galaxy/root`, and the description in `/galaxy/info`. -/
theorem C10_placeholder_defaults (env : Env) (cfg : Config)
    (o : InfraOutcome) (now_iso : String)
    (cpu_percent memory_percent disk_used disk_total : ℚ)
    (start_time now : ℚ)
    (hname : env "GALAXY_SERVICE_NAME" = none)
    (htier : env "GALAXY_SERVICE_TIER" = none)
    (hteam : env "GALAXY_SERVICE_TEAM" = none)
    (hdesc : env "GALAXY_SERVICE_DESCRIPTION" = none)
    (hload : loadConfig env = .ok cfg) :
    cfg.serviceName = "\x7b\x7bSERVICE_NAME\x7d\x7d" ∧
    cfg.serviceTier = "\x7b\x7bTIER\x7d\x7d" ∧
    cfg.serviceTeam = "\x7b\x7bTEAM\x7d\x7d" ∧
    cfg.serviceDescription = "\x7b\x7bDESCRIPTION\x7d\x7d" ∧
    (health_check env cfg o now_iso cpu_percent memory_percent disk_used
      disk_total).service = "\x7b\x7bSERVICE_NAME\x7d\x7d" ∧
    (service_info cfg start_time now).name = "\x7b\x7bSERVICE_NAME\x7d\x7d" ∧
    (service_info cfg start_time now).description =
      "\x7b\x7bDESCRIPTION\x7d\x7d" ∧
    (service_info cfg start_time now).tier = "\x7b\x7bTIER\x7d\x7d" ∧
    (service_info cfg start_time now).team = "\x7b\x7bTEAM\x7d\x7d" ∧
    (root cfg).service = "\x7b\x7bSERVICE_NAME\x7d\x7d" ∧
    (root cfg).tier = "\x7b\x7bTIER\x7d\x7d" ∧
    (root cfg).team = "\x7b\x7bTEAM\x7d\x7d" ∧
    (dependencies cfg).service = "\x7b\x7bSERVICE_NAME\x7d\x7d" := by
  unfold loadConfig at hload
  cases hp : python_int (os_getenv env "INFRA_SERVICE_PORT" "5432") with
  | none =>
    rw [hp] at hload
    exact Except.noConfusion hload
  | some p =>
    rw [hp] at hload
    injection hload with hload
    subst hload
    simp [health_check, service_info, root, dependencies,
      SERVICE_NAME, SERVICE_TIER, SERVICE_TEAM, SERVICE_DESCRIPTION,
      os_getenv, hname, htier, hteam, hdesc]

/-- Witness for C10: the empty environment loads to the default
configuration, whose responses carry the placeholders verbatim. -/
theorem C10_witness :
    cfg0.serviceName = "\x7b\x7bSERVICE_NAME\x7d\x7d" ∧
    cfg0.serviceTier = "\x7b\x7bTIER\x7d\x7d" ∧
    cfg0.serviceTeam = "\x7b\x7bTEAM\x7d\x7d" ∧
    cfg0.serviceDescription = "\x7b\x7bDESCRIPTION\x7d\x7d" ∧
    (health_check env0 cfg0 okOutcome "2026-01-01T00:00:00" 0 0 0 1).service
      = "\x7b\x7bSERVICE_NAME\x7d\x7d" ∧
    (service_info cfg0 0 1).name = "\x7b\x7bSERVICE_NAME\x7d\x7d" ∧
    (service_info cfg0 0 1).description = "\x7b\x7bDESCRIPTION\x7d\x7d" ∧
    (service_info cfg0 0 1).tier = "\x7b\x7bTIER\x7d\x7d" ∧
    (service_info cfg0 0 1).team = "\x7b\x7bTEAM\x7d\x7d" ∧
    (root cfg0).service = "\x7b\x7bSERVICE_NAME\x7d\x7d" ∧
    (root cfg0).tier = "\x7b\x7bTIER\x7d\x7d" ∧
    (root cfg0).team = "\x7b\x7bTEAM\x7d\x7d" ∧
    (dependencies cfg0).service = "\x7b\x7bSERVICE_NAME\x7d\x7d" :=
  C10_placeholder_defaults env0 cfg0 okOutcome "2026-01-01T00:00:00"
    0 0 0 1 0 1 rfl rfl rfl rfl rfl

end GalaxySidecar
